import Mathlib

/-!
Shallow embedding of `app.py` (linkedin-ai-proxy-v2): a Flask backend with
signup/login endpoints and a quota-gated comment-generation endpoint backed
by a Firestore user collection.  Dates are modelled as the `%Y-%m-%d` strings
the code compares; the document store is a partial map from email to record;
the OpenAI call is an opaque `Option String` outcome (`none` = the call
raised, `some s` = it returned content `s`).
-/

/-- User document stored in the `users` Firestore collection, as written by
`signup` (app.py lines 73-80).  `subscription_tier` is `Option String`
because `generate_comment` reads it with `.get('subscription_tier', 'free')`,
so a record may lack the field. -/
structure UserRecord where
  email : String
  password_hash : String
  subscription_tier : Option String
  daily_comment_count : Nat
  last_comment_date : String
  created_at : String
deriving DecidableEq

/-- The `users` collection: a partial map from document id (email) to record. -/
def Store := String → Option UserRecord

/-- Overwrite one document in the collection (Firestore `set`/`update`). -/
def Store.put (s : Store) (k : String) (r : UserRecord) : Store :=
  fun k2 => if k2 = k then some r else s k2

/-- Python truthiness test used by the endpoints on `data.get(...)` fields:
`not x` is true when the field is absent (`None`) or the empty string. -/
def isBlank : Option String → Bool
  | none => true
  | some s => s = ""

/-- Subscription tiers configuration, app.py lines 42-48.  `TIER_LIMITS.get(t)`
is `TIER_LIMITS t : Option ℕ∞`; the value for `enterprise` is `float('inf')`,
modelled as `⊤`. -/
def TIER_LIMITS (tier : String) : Option ℕ∞ :=
  if tier = "free" then some 5
  else if tier = "tier1" then some 30
  else if tier = "tier2" then some 70
  else if tier = "tier3" then some 100
  else if tier = "enterprise" then some ⊤
  else none

/-- Effect of app.py lines 150-153 on the count the quota check reads: the
in-memory dict's `daily_comment_count` after the "reset daily count if it's
a new day" block. -/
def effective_count (r : UserRecord) (today : String) : Nat :=
  if r.last_comment_date ≠ today then 0 else r.daily_comment_count

/-- Limit lookup of app.py lines 156-157:
`TIER_LIMITS.get(user_data.get('subscription_tier', 'free'), 0)`. -/
def record_limit (r : UserRecord) : ℕ∞ :=
  (TIER_LIMITS (r.subscription_tier.getD "free")).getD 0

/-- Result of `POST /signup` (app.py lines 52-83). -/
inductive SignupResult where
  | err (status : Nat) (msg : String)
  | created
deriving DecidableEq

/-- `signup` endpoint, app.py lines 52-83.  `dbOk` models `db` being
configured; `hash` models `generate_password_hash`; `today` is
`datetime.now().strftime('%Y-%m-%d')` and `now` the `created_at` timestamp. -/
def signup (dbOk : Bool) (hash : String → String) (store : Store)
    (today now : String) (email password : Option String) :
    SignupResult × Store :=
  if ¬ dbOk then (.err 500 "Database not configured", store)
  else if isBlank email ∨ isBlank password then
    (.err 400 "Email and password are required", store)
  else
    let e := email.getD ""
    let p := password.getD ""
    match store e with
    | some _ => (.err 409 "User with this email already exists", store)
    | none =>
      let user_data : UserRecord :=
        { email := e
          password_hash := hash p
          subscription_tier := some "free"
          daily_comment_count := 0
          last_comment_date := today
          created_at := now }
      (.created, store.put e user_data)

/-- Result of `POST /login` (app.py lines 85-119).  On success the `userData`
object carries the raw stored fields: `email`, `tier`, `usage`
(`daily_comment_count` as stored) and `limit`
(`TIER_LIMITS.get(tier or 'free')`, no default, hence `Option ℕ∞`). -/
inductive LoginResult where
  | err (status : Nat) (msg : String)
  | success (email : String) (tier : Option String) (usage : Nat)
      (limit : Option ℕ∞)
deriving DecidableEq

/-- `login` endpoint, app.py lines 85-119.  `verify hash pw` models
`check_password_hash(hash, pw)`. -/
def login (dbOk : Bool) (verify : String → String → Bool) (store : Store)
    (email password : Option String) : LoginResult :=
  if ¬ dbOk then .err 500 "Database not configured"
  else if isBlank email ∨ isBlank password then
    .err 400 "Email and password are required"
  else
    match store (email.getD "") with
    | none => .err 401 "Invalid credentials"
    | some user_data =>
      if ¬ verify user_data.password_hash (password.getD "") then
        .err 401 "Invalid credentials"
      else
        .success user_data.email user_data.subscription_tier
          user_data.daily_comment_count
          (TIER_LIMITS (user_data.subscription_tier.getD "free"))

/-- Python's `str.strip()`: drop leading and trailing whitespace, written
structurally so the kernel can evaluate it. -/
def stripStr (s : String) : String :=
  ⟨((s.data.dropWhile Char.isWhitespace).reverse.dropWhile
      Char.isWhitespace).reverse⟩

/-- Result of `POST /generate-comment` (app.py lines 124-195).
`quotaExceeded limit` is the 429 response whose body interpolates `limit`
into "Daily limit of {limit} comments reached...". -/
inductive GenResult where
  | err (status : Nat) (msg : String)
  | quotaExceeded (limit : ℕ∞)
  | success (comment : String)
deriving DecidableEq

/-- HTTP status of a `generate-comment` response. -/
def GenResult.statusCode : GenResult → Nat
  | .err s _ => s
  | .quotaExceeded _ => 429
  | .success _ => 200

/-- `generate_comment` endpoint, app.py lines 124-195.  `genOutcome` is the
outcome of the OpenAI call: `none` means `client.chat.completions.create`
(or the content extraction) raised, `some s` means it returned content `s`
(the code strips it).  On success the code updates the *stored* document
with `firestore.Increment(1)` and `last_comment_date = today_str`; the
in-memory reset of lines 151-153 is never written back. -/
def generate_comment (dbOk clientOk : Bool) (store : Store) (today : String)
    (userId postContent : Option String) (genOutcome : Option String) :
    GenResult × Store :=
  if ¬ (dbOk ∧ clientOk) then
    (.err 500 "A backend service is not configured", store)
  else if isBlank userId ∨ isBlank postContent then
    (.err 400 "Missing userId or postContent", store)
  else
    let uid := userId.getD ""
    match store uid with
    | none => (.err 404 "User not found. Please log in again.", store)
    | some stored =>
      let user_data :=
        if stored.last_comment_date ≠ today then
          { stored with daily_comment_count := 0, last_comment_date := today }
        else stored
      let tier := user_data.subscription_tier.getD "free"
      let limit := (TIER_LIMITS tier).getD 0
      if limit ≤ (user_data.daily_comment_count : ℕ∞) then
        (.quotaExceeded limit, store)
      else
        match genOutcome with
        | none =>
          (.err 500 "Failed to generate comment due to a server error.", store)
        | some content =>
          let updated :=
            { stored with
                daily_comment_count := stored.daily_comment_count + 1
                last_comment_date := today }
          (.success (stripStr content), store.put uid updated)

/-- One check-and-reserve / commit-consumption pair per list element: a full
`generate-comment` request (with a succeeding downstream call) on the given
day, keeping only the resulting store.  Sequential execution, so the pairs
are strictly matched with no interleaving. -/
def runPairs (store : Store) (uid : String) (days : List String) : Store :=
  days.foldl
    (fun s d =>
      (generate_comment true true s d (some uid) (some "post") (some "text")).2)
    store

/-- Whether a `generate-comment` response is the 429 quota-denied one. -/
def GenResult.isQuotaExceeded : GenResult → Bool
  | .quotaExceeded _ => true
  | _ => false

/-- Behaviour of `generate_comment` once the request is well-formed and the
user exists: the quota check compares `record_limit` against the lazily
reset `effective_count`; denial leaves the store untouched, a failed
downstream call gives 500 with the store untouched, and a successful call
increments the *stored* count and stamps today's date. -/
theorem generate_comment_spec (store : Store) (today uid post : String)
    (gen : Option String) (r : UserRecord)
    (huid : uid ≠ "") (hpost : post ≠ "") (hr : store uid = some r) :
    generate_comment true true store today (some uid) (some post) gen =
      if record_limit r ≤ (effective_count r today : ℕ∞) then
        (.quotaExceeded (record_limit r), store)
      else
        match gen with
        | none =>
          (.err 500 "Failed to generate comment due to a server error.", store)
        | some content =>
          (.success (stripStr content),
            store.put uid
              { r with
                  daily_comment_count := r.daily_comment_count + 1
                  last_comment_date := today }) := by
  by_cases hd : r.last_comment_date = today <;>
    simp [generate_comment, isBlank, huid, hpost, hr, hd, effective_count,
      record_limit]

/-- C1: for a record whose `last_comment_date` is not today, the quota check
does observe an effective count of 0 (the claim's first half holds), but the
first subsequent commit does NOT store `used_count = 1`: the Firestore update
applies `Increment(1)` to the stale stored count (here 3), yielding 4, while
stamping `last_comment_date = today`.  Concrete evaluation of the code at the
failing input. -/
theorem C1_commit_does_not_reset :
    let r : UserRecord :=
      { email := "u@x.com", password_hash := "h"
        subscription_tier := some "free", daily_comment_count := 3
        last_comment_date := "2024-01-01", created_at := "t0" }
    let s : Store := Store.put (fun _ => none) "u@x.com" r
    let out :=
      generate_comment true true s "2024-01-02" (some "u@x.com")
        (some "a post") (some "a comment")
    effective_count r "2024-01-02" = 0 ∧
    out.1 = .success "a comment" ∧
    out.2 "u@x.com" =
      some { email := "u@x.com", password_hash := "h"
             subscription_tier := some "free", daily_comment_count := 4
             last_comment_date := "2024-01-02", created_at := "t0" } ∧
    ¬ (out.2 "u@x.com").map UserRecord.daily_comment_count = some 1 := by
  decide

/-- C2: starting from a fresh free-tier signup and running only strictly
matched check/commit pairs (five on day one, one on day two), the effective
used count for day two reaches 6, which exceeds the free-tier limit 5: the
claimed invariant `effective_used ∈ [0, limit]` is violated by the code,
because the day-two commit increments the un-reset stored count. -/
theorem C2_effective_count_exceeds_limit :
    let s0 : Store :=
      (signup true (fun p => String.append "H" p) (fun _ => none)
        "2024-01-01" "t0" (some "u@x.com") (some "pw")).2
    let sN : Store :=
      runPairs s0 "u@x.com"
        ["2024-01-01", "2024-01-01", "2024-01-01", "2024-01-01", "2024-01-01",
         "2024-01-02"]
    (sN "u@x.com").map (fun r => effective_count r "2024-01-02") = some 6 ∧
    (sN "u@x.com").map record_limit = some 5 ∧
    ¬ ((6 : ℕ∞) ≤ 5) := by
  decide

/-- C3: a record whose tier string is absent from `TIER_LIMITS` gets limit 0,
so every well-formed request for it is denied with the 429 quota response
carrying limit 0, and the store is not mutated. -/
theorem C3_unknown_tier_always_denied (store : Store)
    (today uid post t : String) (gen : Option String) (r : UserRecord)
    (huid : uid ≠ "") (hpost : post ≠ "") (hr : store uid = some r)
    (ht : r.subscription_tier = some t) (habs : TIER_LIMITS t = none) :
    generate_comment true true store today (some uid) (some post) gen =
      (.quotaExceeded 0, store) := by
  have hlim : record_limit r = 0 := by simp [record_limit, ht, habs]
  rw [generate_comment_spec store today uid post gen r huid hpost hr, hlim]
  simp

/-- C3 witness: a user with tier "legacy" and zero usage is denied. -/
theorem C3_unknown_tier_always_denied_witness :
    generate_comment true true
      (Store.put (fun _ => none) "u@x.com"
        { email := "u@x.com", password_hash := "h"
          subscription_tier := some "legacy", daily_comment_count := 0
          last_comment_date := "2024-01-01", created_at := "t0" })
      "2024-01-01" (some "u@x.com") (some "a post") (some "a comment") =
      (.quotaExceeded 0,
        Store.put (fun _ => none) "u@x.com"
          { email := "u@x.com", password_hash := "h"
            subscription_tier := some "legacy", daily_comment_count := 0
            last_comment_date := "2024-01-01", created_at := "t0" }) :=
  C3_unknown_tier_always_denied
    (Store.put (fun _ => none) "u@x.com"
      { email := "u@x.com", password_hash := "h"
        subscription_tier := some "legacy", daily_comment_count := 0
        last_comment_date := "2024-01-01", created_at := "t0" })
    "2024-01-01" "u@x.com" "a post" "legacy" (some "a comment")
    { email := "u@x.com", password_hash := "h"
      subscription_tier := some "legacy", daily_comment_count := 0
      last_comment_date := "2024-01-01", created_at := "t0" }
    (by decide) (by decide) (by decide) (by decide) (by decide)

/-- C4: when the quota check permits the request but the downstream OpenAI
call raises (`gen = none`), the endpoint returns the 500 server-error
response and the store — hence the stored `daily_comment_count` and
`last_comment_date` — is unchanged. -/
theorem C4_downstream_failure_no_commit (store : Store)
    (today uid post : String) (r : UserRecord)
    (huid : uid ≠ "") (hpost : post ≠ "") (hr : store uid = some r)
    (hq : (effective_count r today : ℕ∞) < record_limit r) :
    generate_comment true true store today (some uid) (some post) none =
      (.err 500 "Failed to generate comment due to a server error.", store) := by
  rw [generate_comment_spec store today uid post none r huid hpost hr,
    if_neg (not_le.mpr hq)]

/-- C4 witness: a free-tier user with 2 of 5 used today; the downstream call
fails, the response is 500 and the store is returned unchanged. -/
theorem C4_downstream_failure_no_commit_witness :
    generate_comment true true
      (Store.put (fun _ => none) "u@x.com"
        { email := "u@x.com", password_hash := "h"
          subscription_tier := some "free", daily_comment_count := 2
          last_comment_date := "2024-01-01", created_at := "t0" })
      "2024-01-01" (some "u@x.com") (some "a post") none =
      (.err 500 "Failed to generate comment due to a server error.",
        Store.put (fun _ => none) "u@x.com"
          { email := "u@x.com", password_hash := "h"
            subscription_tier := some "free", daily_comment_count := 2
            last_comment_date := "2024-01-01", created_at := "t0" }) :=
  C4_downstream_failure_no_commit
    (Store.put (fun _ => none) "u@x.com"
      { email := "u@x.com", password_hash := "h"
        subscription_tier := some "free", daily_comment_count := 2
        last_comment_date := "2024-01-01", created_at := "t0" })
    "2024-01-01" "u@x.com" "a post"
    { email := "u@x.com", password_hash := "h"
      subscription_tier := some "free", daily_comment_count := 2
      last_comment_date := "2024-01-01", created_at := "t0" }
    (by decide) (by decide) (by decide) (by decide)

/-- C5: when the effective used count has reached the limit, the endpoint
returns the quota-denied response carrying that limit — surfaced with HTTP
status 429 — and the store is not mutated. -/
theorem C5_denied_carries_limit_no_mutation (store : Store)
    (today uid post : String) (gen : Option String) (r : UserRecord)
    (huid : uid ≠ "") (hpost : post ≠ "") (hr : store uid = some r)
    (hq : record_limit r ≤ (effective_count r today : ℕ∞)) :
    generate_comment true true store today (some uid) (some post) gen =
      (.quotaExceeded (record_limit r), store) ∧
    (GenResult.quotaExceeded (record_limit r)).statusCode = 429 := by
  refine ⟨?_, rfl⟩
  rw [generate_comment_spec store today uid post gen r huid hpost hr,
    if_pos hq]

/-- C5 witness: a free-tier user at 5 of 5 used today is denied with limit 5
and an unchanged store (the spec's tier-boundary example). -/
theorem C5_denied_carries_limit_no_mutation_witness :
    generate_comment true true
      (Store.put (fun _ => none) "u@x.com"
        { email := "u@x.com", password_hash := "h"
          subscription_tier := some "free", daily_comment_count := 5
          last_comment_date := "2024-01-01", created_at := "t0" })
      "2024-01-01" (some "u@x.com") (some "a post") (some "a comment") =
      (.quotaExceeded
        (record_limit
          { email := "u@x.com", password_hash := "h"
            subscription_tier := some "free", daily_comment_count := 5
            last_comment_date := "2024-01-01", created_at := "t0" }),
        Store.put (fun _ => none) "u@x.com"
          { email := "u@x.com", password_hash := "h"
            subscription_tier := some "free", daily_comment_count := 5
            last_comment_date := "2024-01-01", created_at := "t0" }) ∧
    (GenResult.quotaExceeded
      (record_limit
        { email := "u@x.com", password_hash := "h"
          subscription_tier := some "free", daily_comment_count := 5
          last_comment_date := "2024-01-01", created_at := "t0" })).statusCode
      = 429 :=
  C5_denied_carries_limit_no_mutation
    (Store.put (fun _ => none) "u@x.com"
      { email := "u@x.com", password_hash := "h"
        subscription_tier := some "free", daily_comment_count := 5
        last_comment_date := "2024-01-01", created_at := "t0" })
    "2024-01-01" "u@x.com" "a post" (some "a comment")
    { email := "u@x.com", password_hash := "h"
      subscription_tier := some "free", daily_comment_count := 5
      last_comment_date := "2024-01-01", created_at := "t0" }
    (by decide) (by decide) (by decide) (by decide)

/-- C6: a record with tier "enterprise" has limit ⊤, and since every stored
count is a finite natural, the quota check never denies it: the response is
never the 429 quota-denied one, whatever the downstream outcome. -/
theorem C6_enterprise_never_quota_denied (store : Store)
    (today uid post : String) (gen : Option String) (r : UserRecord)
    (huid : uid ≠ "") (hpost : post ≠ "") (hr : store uid = some r)
    (hent : r.subscription_tier = some "enterprise") :
    (generate_comment true true store today (some uid) (some post)
        gen).1.isQuotaExceeded = false := by
  have hlim : record_limit r = ⊤ := by simp [record_limit, hent, TIER_LIMITS]
  rw [generate_comment_spec store today uid post gen r huid hpost hr, hlim]
  have hfin : ¬ ((⊤ : ℕ∞) ≤ (effective_count r today : ℕ∞)) := by
    simp [top_le_iff]
  rw [if_neg hfin]
  cases gen <;> rfl

/-- C6 witness: an enterprise user with a large used count is still not
quota-denied. -/
theorem C6_enterprise_never_quota_denied_witness :
    (generate_comment true true
      (Store.put (fun _ => none) "u@x.com"
        { email := "u@x.com", password_hash := "h"
          subscription_tier := some "enterprise", daily_comment_count := 1000000
          last_comment_date := "2024-01-01", created_at := "t0" })
      "2024-01-01" (some "u@x.com") (some "a post")
      (some "a comment")).1.isQuotaExceeded = false :=
  C6_enterprise_never_quota_denied
    (Store.put (fun _ => none) "u@x.com"
      { email := "u@x.com", password_hash := "h"
        subscription_tier := some "enterprise", daily_comment_count := 1000000
        last_comment_date := "2024-01-01", created_at := "t0" })
    "2024-01-01" "u@x.com" "a post" (some "a comment")
    { email := "u@x.com", password_hash := "h"
      subscription_tier := some "enterprise", daily_comment_count := 1000000
      last_comment_date := "2024-01-01", created_at := "t0" }
    (by decide) (by decide) (by decide) (by decide)

/-- C7: the login failure for an unregistered email and the login failure for
a registered email with a wrong password are the identical response — status
401 with body "Invalid credentials" — so a caller cannot tell "no such user"
from "wrong password". -/
theorem C7_login_failures_indistinguishable
    (verify : String → String → Bool) (store : Store)
    (e1 p1 e2 p2 : String) (r : UserRecord)
    (he1 : e1 ≠ "") (hp1 : p1 ≠ "") (he2 : e2 ≠ "") (hp2 : p2 ≠ "")
    (hnone : store e1 = none) (hsome : store e2 = some r)
    (hbad : verify r.password_hash p2 = false) :
    login true verify store (some e1) (some p1) =
      .err 401 "Invalid credentials" ∧
    login true verify store (some e2) (some p2) =
      .err 401 "Invalid credentials" ∧
    login true verify store (some e1) (some p1) =
      login true verify store (some e2) (some p2) := by
  have h1 : login true verify store (some e1) (some p1) =
      .err 401 "Invalid credentials" := by
    simp [login, isBlank, he1, hp1, hnone]
  have h2 : login true verify store (some e2) (some p2) =
      .err 401 "Invalid credentials" := by
    simp [login, isBlank, he2, hp2, hsome, hbad]
  exact ⟨h1, h2, h1.trans h2.symm⟩

/-- C7 witness: a store with one user; logging in as an unknown email and as
the known email with a wrong password produce the same 401 response. -/
theorem C7_login_failures_indistinguishable_witness :
    login true (fun h p => h == String.append "H" p)
      (Store.put (fun _ => none) "u@x.com"
        { email := "u@x.com", password_hash := "Hpw"
          subscription_tier := some "free", daily_comment_count := 0
          last_comment_date := "2024-01-01", created_at := "t0" })
      (some "ghost@x.com") (some "whatever") =
      .err 401 "Invalid credentials" ∧
    login true (fun h p => h == String.append "H" p)
      (Store.put (fun _ => none) "u@x.com"
        { email := "u@x.com", password_hash := "Hpw"
          subscription_tier := some "free", daily_comment_count := 0
          last_comment_date := "2024-01-01", created_at := "t0" })
      (some "u@x.com") (some "wrongpw") =
      .err 401 "Invalid credentials" ∧
    login true (fun h p => h == String.append "H" p)
      (Store.put (fun _ => none) "u@x.com"
        { email := "u@x.com", password_hash := "Hpw"
          subscription_tier := some "free", daily_comment_count := 0
          last_comment_date := "2024-01-01", created_at := "t0" })
      (some "ghost@x.com") (some "whatever") =
      login true (fun h p => h == String.append "H" p)
        (Store.put (fun _ => none) "u@x.com"
          { email := "u@x.com", password_hash := "Hpw"
            subscription_tier := some "free", daily_comment_count := 0
            last_comment_date := "2024-01-01", created_at := "t0" })
        (some "u@x.com") (some "wrongpw") :=
  C7_login_failures_indistinguishable
    (fun h p => h == String.append "H" p)
    (Store.put (fun _ => none) "u@x.com"
      { email := "u@x.com", password_hash := "Hpw"
        subscription_tier := some "free", daily_comment_count := 0
        last_comment_date := "2024-01-01", created_at := "t0" })
    "ghost@x.com" "whatever" "u@x.com" "wrongpw"
    { email := "u@x.com", password_hash := "Hpw"
      subscription_tier := some "free", daily_comment_count := 0
      last_comment_date := "2024-01-01", created_at := "t0" }
    (by decide) (by decide) (by decide) (by decide) (by decide) (by decide)
    (by decide)

/-- C8: a first signup on a fresh email returns 201 and creates the record
with tier "free", count 0 and today's date; a second signup with the same
email returns the 409 conflict response and leaves the store — hence the
first record — unchanged. -/
theorem C8_duplicate_signup_conflict (hash : String → String) (store : Store)
    (today now today2 now2 e p p2 : String)
    (he : e ≠ "") (hp : p ≠ "") (hp2 : p2 ≠ "") (hnew : store e = none) :
    (signup true hash store today now (some e) (some p)).1 = .created ∧
    (signup true hash store today now (some e) (some p)).2 e =
      some { email := e, password_hash := hash p
             subscription_tier := some "free", daily_comment_count := 0
             last_comment_date := today, created_at := now } ∧
    (signup true hash (signup true hash store today now (some e) (some p)).2
        today2 now2 (some e) (some p2)).1 =
      .err 409 "User with this email already exists" ∧
    (signup true hash (signup true hash store today now (some e) (some p)).2
        today2 now2 (some e) (some p2)).2 =
      (signup true hash store today now (some e) (some p)).2 := by
  have hfst : (signup true hash store today now (some e) (some p)) =
      (.created, Store.put store e
        { email := e, password_hash := hash p
          subscription_tier := some "free", daily_comment_count := 0
          last_comment_date := today, created_at := now }) := by
    simp [signup, isBlank, he, hp, hnew]
  have hget : (signup true hash store today now (some e) (some p)).2 e =
      some { email := e, password_hash := hash p
             subscription_tier := some "free", daily_comment_count := 0
             last_comment_date := today, created_at := now } := by
    rw [hfst]; simp [Store.put]
  refine ⟨by rw [hfst], hget, ?_, ?_⟩ <;>
    rw [hfst] <;> simp [signup, isBlank, he, hp2, Store.put]

/-- C8 witness: concrete double signup of the same email. -/
theorem C8_duplicate_signup_conflict_witness :
    (signup true (fun p => String.append "H" p) (fun _ => none)
      "2024-01-01" "t0" (some "u@x.com") (some "pw")).1 = .created ∧
    (signup true (fun p => String.append "H" p) (fun _ => none)
      "2024-01-01" "t0" (some "u@x.com") (some "pw")).2 "u@x.com" =
      some { email := "u@x.com", password_hash := String.append "H" "pw"
             subscription_tier := some "free", daily_comment_count := 0
             last_comment_date := "2024-01-01", created_at := "t0" } ∧
    (signup true (fun p => String.append "H" p)
      (signup true (fun p => String.append "H" p) (fun _ => none)
        "2024-01-01" "t0" (some "u@x.com") (some "pw")).2
      "2024-01-02" "t1" (some "u@x.com") (some "pw2")).1 =
      .err 409 "User with this email already exists" ∧
    (signup true (fun p => String.append "H" p)
      (signup true (fun p => String.append "H" p) (fun _ => none)
        "2024-01-01" "t0" (some "u@x.com") (some "pw")).2
      "2024-01-02" "t1" (some "u@x.com") (some "pw2")).2 =
      (signup true (fun p => String.append "H" p) (fun _ => none)
        "2024-01-01" "t0" (some "u@x.com") (some "pw")).2 :=
  C8_duplicate_signup_conflict (fun p => String.append "H" p) (fun _ => none)
    "2024-01-01" "t0" "2024-01-02" "t1" "u@x.com" "pw" "pw2"
    (by decide) (by decide) (by decide) (by decide)

/-- C9: a successful login returns the raw stored `daily_comment_count` as
the `usage` field — `login` never looks at today's date — so for a record
whose `last_comment_date` is not today the reported usage is the previous
day's count, while the quota check's lazily reset effective count would be
0. -/
theorem C9_login_usage_is_raw_stored_count
    (verify : String → String → Bool) (store : Store)
    (e p today : String) (r : UserRecord)
    (he : e ≠ "") (hp : p ≠ "") (hsome : store e = some r)
    (hok : verify r.password_hash p = true)
    (hstale : r.last_comment_date ≠ today) :
    login true verify store (some e) (some p) =
      .success r.email r.subscription_tier r.daily_comment_count
        (TIER_LIMITS (r.subscription_tier.getD "free")) ∧
    effective_count r today = 0 := by
  constructor
  · simp [login, isBlank, he, hp, hsome, hok]
  · simp [effective_count, hstale]

/-- C9 witness: a user with 4 uses stored for yesterday logs in today; the
returned usage is 4 while the effective count for today is 0. -/
theorem C9_login_usage_is_raw_stored_count_witness :
    login true (fun h p => h == String.append "H" p)
      (Store.put (fun _ => none) "u@x.com"
        { email := "u@x.com", password_hash := String.append "H" "pw"
          subscription_tier := some "free", daily_comment_count := 4
          last_comment_date := "2024-01-01", created_at := "t0" })
      (some "u@x.com") (some "pw") =
      .success "u@x.com" (some "free") 4 (TIER_LIMITS "free") ∧
    effective_count
      { email := "u@x.com", password_hash := String.append "H" "pw"
        subscription_tier := some "free", daily_comment_count := 4
        last_comment_date := "2024-01-01", created_at := "t0" }
      "2024-01-02" = 0 :=
  C9_login_usage_is_raw_stored_count
    (fun h p => h == String.append "H" p)
    (Store.put (fun _ => none) "u@x.com"
      { email := "u@x.com", password_hash := String.append "H" "pw"
        subscription_tier := some "free", daily_comment_count := 4
        last_comment_date := "2024-01-01", created_at := "t0" })
    "u@x.com" "pw" "2024-01-02"
    { email := "u@x.com", password_hash := String.append "H" "pw"
      subscription_tier := some "free", daily_comment_count := 4
      last_comment_date := "2024-01-01", created_at := "t0" }
    (by decide) (by decide) (by decide) (by decide) (by decide)

/-- C10: a record lacking the tier field defaults to "free" and gets limit 5
(so an under-limit request is not quota-denied), whereas a record whose tier
string is not in `TIER_LIMITS` gets limit 0 and is always quota-denied:
absent and unrecognized tiers behave differently. -/
theorem C10_absent_tier_vs_unknown_tier (s1 s2 : Store)
    (today uid post t : String) (gen : Option String) (r1 r2 : UserRecord)
    (huid : uid ≠ "") (hpost : post ≠ "")
    (h1 : s1 uid = some r1) (habsent : r1.subscription_tier = none)
    (h2 : s2 uid = some r2) (ht : r2.subscription_tier = some t)
    (hunk : TIER_LIMITS t = none) :
    record_limit r1 = 5 ∧
    ((effective_count r1 today : ℕ∞) < 5 →
      (generate_comment true true s1 today (some uid) (some post)
          gen).1.isQuotaExceeded = false) ∧
    record_limit r2 = 0 ∧
    (generate_comment true true s2 today (some uid) (some post) gen).1 =
      .quotaExceeded 0 := by
  have hl1 : record_limit r1 = 5 := by
    simp [record_limit, habsent, TIER_LIMITS]
  have hl2 : record_limit r2 = 0 := by simp [record_limit, ht, hunk]
  refine ⟨hl1, ?_, hl2, ?_⟩
  · intro hlt
    rw [generate_comment_spec s1 today uid post gen r1 huid hpost h1, hl1,
      if_neg (not_le.mpr hlt)]
    cases gen <;> rfl
  · rw [generate_comment_spec s2 today uid post gen r2 huid hpost h2, hl2]
    simp

/-- C10 witness: same usage and day, one record without a tier field (treated
as free, permitted at count 2) and one with tier "gold" (limit 0, denied). -/
theorem C10_absent_tier_vs_unknown_tier_witness :
    record_limit
      { email := "a@x.com", password_hash := "h"
        subscription_tier := none, daily_comment_count := 2
        last_comment_date := "2024-01-01", created_at := "t0" } = 5 ∧
    ((effective_count
        { email := "a@x.com", password_hash := "h"
          subscription_tier := none, daily_comment_count := 2
          last_comment_date := "2024-01-01", created_at := "t0" }
        "2024-01-01" : ℕ∞) < 5 →
      (generate_comment true true
        (Store.put (fun _ => none) "a@x.com"
          { email := "a@x.com", password_hash := "h"
            subscription_tier := none, daily_comment_count := 2
            last_comment_date := "2024-01-01", created_at := "t0" })
        "2024-01-01" (some "a@x.com") (some "a post")
        (some "a comment")).1.isQuotaExceeded = false) ∧
    record_limit
      { email := "a@x.com", password_hash := "h"
        subscription_tier := some "gold", daily_comment_count := 2
        last_comment_date := "2024-01-01", created_at := "t0" } = 0 ∧
    (generate_comment true true
      (Store.put (fun _ => none) "a@x.com"
        { email := "a@x.com", password_hash := "h"
          subscription_tier := some "gold", daily_comment_count := 2
          last_comment_date := "2024-01-01", created_at := "t0" })
      "2024-01-01" (some "a@x.com") (some "a post") (some "a comment")).1 =
      .quotaExceeded 0 :=
  C10_absent_tier_vs_unknown_tier
    (Store.put (fun _ => none) "a@x.com"
      { email := "a@x.com", password_hash := "h"
        subscription_tier := none, daily_comment_count := 2
        last_comment_date := "2024-01-01", created_at := "t0" })
    (Store.put (fun _ => none) "a@x.com"
      { email := "a@x.com", password_hash := "h"
        subscription_tier := some "gold", daily_comment_count := 2
        last_comment_date := "2024-01-01", created_at := "t0" })
    "2024-01-01" "a@x.com" "a post" "gold" (some "a comment")
    { email := "a@x.com", password_hash := "h"
      subscription_tier := none, daily_comment_count := 2
      last_comment_date := "2024-01-01", created_at := "t0" }
    { email := "a@x.com", password_hash := "h"
      subscription_tier := some "gold", daily_comment_count := 2
      last_comment_date := "2024-01-01", created_at := "t0" }
    (by decide) (by decide) (by decide) (by decide) (by decide) (by decide)
    (by decide)
